import Mathlib

/-
Verification of the CarbonSight metrics aggregation and efficiency-scoring
pipeline: a shallow embedding of the Python services
(`database_service.py`, `metrics_service.py`, `gemini_service.py`,
`database_service_production.py`, `analytics_service_production.py`)
into Lean 4, with theorems settling the specification claims.

Modelling conventions:
  * Python floats are modelled as rationals (ℚ); Python ints as ℤ or ℕ.
  * Python dict results are modelled as structures; a dict carrying an
    "error" key instead of data is modelled as `Except String _`.
  * `datetime.now()` and `psutil` readings are passed as explicit
    parameters, since the Python code reads them from the environment.
  * `math.sqrt` appears only as the outermost operation of the forecast
    margin; the embedding exposes the exact rational radicand and the
    theorems about the margin are stated through `Real.sqrt` applied to
    those rationals.
-/

namespace CarbonSight

/-! ## Data model (models.py)

Pydantic model `TeamStats` (models.py, lines 32-56).  Only the fields read
by the embedded functions are carried; the datetime fields and ranking
fields are omitted because no embedded computation reads them. -/

structure TeamStats where
  team_id : String
  team_name : String
  member_count : ℤ
  total_co2_saved_grams : ℚ
  total_energy_saved_kwh : ℚ
  cost_savings_usd : ℚ
  green_tokens_earned : ℚ
deriving Repr, DecidableEq

/-! ## Team efficiency score (database_service.py, lines 303-313)

Python source, `DatabaseService._calculate_team_efficiency_score`:

    if team_stats.total_energy_saved_kwh == 0:
        return 0.0
    energy_efficiency = team_stats.total_energy_saved_kwh / max(1, team_stats.member_count)
    co2_efficiency = team_stats.total_co2_saved_grams / max(1, team_stats.member_count)
    token_efficiency = team_stats.green_tokens_earned / max(1, team_stats.member_count)
    return (energy_efficiency + co2_efficiency + token_efficiency) / 3
-/

def calculate_team_efficiency_score (team_stats : TeamStats) : ℚ :=
  if team_stats.total_energy_saved_kwh = 0 then 0
  else
    let energy_efficiency := team_stats.total_energy_saved_kwh / ((max 1 team_stats.member_count : ℤ) : ℚ)
    let co2_efficiency := team_stats.total_co2_saved_grams / ((max 1 team_stats.member_count : ℤ) : ℚ)
    let token_efficiency := team_stats.green_tokens_earned / ((max 1 team_stats.member_count : ℤ) : ℚ)
    (energy_efficiency + co2_efficiency + token_efficiency) / 3

/-- Written from the words of the specification claim C1: each per-member
term divided by `max(1, memberCount)`, averaged over the three terms, then
divided by 100 and clamped into `[0, 1]`. -/
def team_efficiency_score_spec_claimed (ts : TeamStats) : ℚ :=
  let m : ℚ := ((max 1 ts.member_count : ℤ) : ℚ)
  min 1 (max 0 ((ts.total_energy_saved_kwh / m + ts.total_co2_saved_grams / m
      + ts.green_tokens_earned / m) / 3 / 100))

/-- Written from the words of the amended claim C1: score is 0 exactly when
`total_energy_saved_kwh == 0`; otherwise the sum of the three totals divided
by `3 * max(1, memberCount)` — no division by 100 and no clamp. -/
def team_efficiency_score_spec_amended (ts : TeamStats) : ℚ :=
  if ts.total_energy_saved_kwh = 0 then 0
  else (ts.total_energy_saved_kwh + ts.total_co2_saved_grams + ts.green_tokens_earned)
      / (3 * ((max 1 ts.member_count : ℤ) : ℚ))

/-- Concrete team input refuting claim C1: zero members, 300 kWh saved,
nothing else. -/
def c1_team : TeamStats :=
  { team_id := "t0", team_name := "zero-members", member_count := 0
    total_co2_saved_grams := 0, total_energy_saved_kwh := 300
    cost_savings_usd := 0, green_tokens_earned := 0 }

/-- Claim C1 counterexample: with `member_count = 0` and a non-zero record
set (300 kWh of energy), the code returns 100, not 0, and not the claimed
clamped value (which would be 1); the guard in the code is on
`total_energy_saved_kwh == 0`, not on `member_count == 0`. -/
theorem c1_counterexample :
    c1_team.member_count = 0 ∧
    calculate_team_efficiency_score c1_team = 100 ∧
    team_efficiency_score_spec_claimed c1_team = 1 ∧
    calculate_team_efficiency_score c1_team ≠ 0 ∧
    calculate_team_efficiency_score c1_team ≠ team_efficiency_score_spec_claimed c1_team := by
  refine ⟨rfl, ?_, ?_, ?_, ?_⟩ <;>
    norm_num [calculate_team_efficiency_score, team_efficiency_score_spec_claimed, c1_team]

/-- Claim C1 (amended): the team efficiency score is 0 exactly when
`total_energy_saved_kwh = 0` (the guard is on energy, not on member count),
and otherwise equals the sum of the three per-member terms — each divided by
`max(1, memberCount)` — averaged over 3, with no division by 100 and no
clamp; equivalently the sum of the three totals over `3 * max(1, memberCount)`. -/
theorem c1_amended_team_score (ts : TeamStats) :
    calculate_team_efficiency_score ts = team_efficiency_score_spec_amended ts := by
  unfold calculate_team_efficiency_score team_efficiency_score_spec_amended
  have hm : (0 : ℤ) < max 1 ts.member_count := lt_of_lt_of_le one_pos (le_max_left _ _)
  have hm' : ((max 1 ts.member_count : ℤ) : ℚ) ≠ 0 := by
    exact_mod_cast hm.ne'
  split
  · rfl
  · simp only []
    rw [div_add_div_same, div_add_div_same, div_div, mul_comm]

/-! ## Python rounding

Python `round(x, n)` rounds half to even (banker's rounding).  The embedding
works on exact rationals. -/

/-- Round a rational to the nearest integer, ties to even, as Python
`round` does. -/
def round_half_even (q : ℚ) : ℤ :=
  if q - ⌊q⌋ = 1 / 2 then (if 2 ∣ ⌊q⌋ then ⌊q⌋ else ⌊q⌋ + 1) else round q

/-- Python `round(q, n)` on exact rationals. -/
def py_round (q : ℚ) (n : ℕ) : ℚ :=
  ((round_half_even (q * 10 ^ n) : ℤ) : ℚ) / 10 ^ n

theorem round_half_even_nonneg {q : ℚ} (h : 0 ≤ q) : 0 ≤ round_half_even q := by
  unfold round_half_even
  have hfl : (0 : ℤ) ≤ ⌊q⌋ := Int.floor_nonneg.mpr h
  split
  · split <;> omega
  · rw [round_eq]
    exact Int.floor_nonneg.mpr (by linarith)

theorem round_half_even_le {q : ℚ} {B : ℤ} (h : q ≤ (B : ℚ)) :
    round_half_even q ≤ B := by
  unfold round_half_even
  split
  · next htie =>
    have hflq : (⌊q⌋ : ℚ) = q - 1 / 2 := by linarith
    have hlt : (⌊q⌋ : ℚ) < (B : ℚ) := by rw [hflq]; linarith
    have hlt' : ⌊q⌋ < B := by exact_mod_cast hlt
    split <;> omega
  · rw [round_eq]
    calc ⌊q + 1 / 2⌋ ≤ ⌊(B : ℚ) + 1 / 2⌋ := Int.floor_le_floor (by linarith)
    _ = B + ⌊(1 : ℚ) / 2⌋ := Int.floor_int_add B (1 / 2)
    _ = B := by norm_num

theorem py_round_nonneg {q : ℚ} (h : 0 ≤ q) (n : ℕ) : 0 ≤ py_round q n := by
  unfold py_round
  have h1 : (0 : ℤ) ≤ round_half_even (q * 10 ^ n) :=
    round_half_even_nonneg (by positivity)
  have h2 : (0 : ℚ) ≤ ((round_half_even (q * 10 ^ n) : ℤ) : ℚ) := by exact_mod_cast h1
  positivity

theorem py_round_le {q : ℚ} {B : ℤ} (h : q ≤ (B : ℚ)) (n : ℕ) :
    py_round q n ≤ (B : ℚ) := by
  unfold py_round
  have h1 : round_half_even (q * 10 ^ n) ≤ B * 10 ^ n := by
    apply round_half_even_le
    push_cast
    have hpow : (0 : ℚ) < 10 ^ n := by positivity
    exact mul_le_mul_of_nonneg_right h (le_of_lt hpow)
  have h2 : ((round_half_even (q * 10 ^ n) : ℤ) : ℚ) ≤ ((B * 10 ^ n : ℤ) : ℚ) := by
    exact_mod_cast h1
  rw [div_le_iff₀ (by positivity : (0 : ℚ) < 10 ^ n)]
  push_cast at h2 ⊢
  linarith

theorem py_round_clamp_nonneg (x : ℚ) : 0 ≤ py_round (max 0 (min 100 x)) 1 :=
  py_round_nonneg (le_max_left _ _) 1

theorem py_round_clamp_le (x : ℚ) : py_round (max 0 (min 100 x)) 1 ≤ 100 := by
  have h : max 0 (min 100 x) ≤ ((100 : ℤ) : ℚ) := by
    push_cast
    exact max_le (by norm_num) (min_le_left _ _)
  exact_mod_cast py_round_le h 1

/-! ## Rolling metrics buffer (metrics_service.py)

Record type produced by `MetricsService.track_request_metrics`
(metrics_service.py, lines 81-98).  `datetime.now().isoformat()` is
modelled as a rational timestamp passed in by the caller. -/

structure MetricsRecord where
  timestamp : ℚ
  model : String
  prompt_length : ℕ
  response_length : ℕ
  latency_ms : ℤ
  cost_usd : ℚ
  input_tokens : ℤ
  output_tokens : ℤ
  total_tokens : ℤ
  tokens_per_second : ℚ
  cost_per_token : ℚ
  cost_per_character : ℚ
  prompt_complexity : ℚ
  efficiency_score : ℚ
deriving Repr, DecidableEq

/-- Python `MetricsService._calculate_prompt_complexity`
(metrics_service.py, lines 109-133). -/
def calculate_prompt_complexity (prompt : String) : ℚ :=
  let length_factor := min ((prompt.length : ℚ) / 1000) 1
  let special_chars :=
    (prompt.toList.filter (fun c => ¬ c.isAlphanum ∧ ¬ c.isWhitespace)).length
  let special_factor :=
    if prompt.length > 0 then min ((special_chars : ℚ) / (prompt.length : ℚ)) 1 else 0
  let question_marks := prompt.toList.count '?'
  let exclamation_marks := prompt.toList.count '!'
  let question_factor := min (((question_marks + exclamation_marks : ℕ) : ℚ) / 10) 1
  py_round (length_factor * (4 / 10) + special_factor * (3 / 10) + question_factor * (3 / 10)) 3

/-- Python `MetricsService._calculate_efficiency_score`
(metrics_service.py, lines 135-166). -/
def calculate_efficiency_score (latency_ms : ℤ) (cost_usd tokens_per_second complexity : ℚ) : ℚ :=
  let latency_score := max 0 (1 - (latency_ms : ℚ) / 5000)
  let cost_score := max 0 (1 - cost_usd / (1 / 10))
  let speed_score := min 1 (tokens_per_second / 100)
  let base_score := latency_score * (3 / 10) + cost_score * (4 / 10) + speed_score * (3 / 10)
  let complexity_bonus := complexity * (1 / 10)
  let efficiency := (base_score + complexity_bonus) * 100
  py_round (max 0 (min 100 efficiency)) 1

/-- Buffer update of `MetricsService.track_request_metrics`
(metrics_service.py, lines 100-105): append, then keep only the last 1000
records (`self.metrics_history[-1000:]`) when the length exceeds 1000. -/
def buffer_append (metrics_history : List MetricsRecord) (record : MetricsRecord) :
    List MetricsRecord :=
  let h := metrics_history ++ [record]
  if h.length > 1000 then h.drop (h.length - 1000) else h

/-- Python `MetricsService.track_request_metrics` (metrics_service.py,
lines 45-107).  Returns the metrics record together with the updated
history. -/
def track_request_metrics (now : ℚ) (metrics_history : List MetricsRecord)
    (prompt response model : String) (latency_ms : ℤ) (cost_usd : ℚ)
    (input_tokens output_tokens total_tokens : ℤ) :
    MetricsRecord × List MetricsRecord :=
  let tokens_per_second :=
    if latency_ms > 0 then (total_tokens : ℚ) / ((latency_ms : ℚ) / 1000) else 0
  let cost_per_token := if total_tokens > 0 then cost_usd / (total_tokens : ℚ) else 0
  let cost_per_character :=
    if response.length > 0 then cost_usd / (response.length : ℚ) else 0
  let prompt_complexity := calculate_prompt_complexity prompt
  let record : MetricsRecord :=
    { timestamp := now
      model := model
      prompt_length := prompt.length
      response_length := response.length
      latency_ms := latency_ms
      cost_usd := cost_usd
      input_tokens := input_tokens
      output_tokens := output_tokens
      total_tokens := total_tokens
      tokens_per_second := py_round tokens_per_second 2
      cost_per_token := py_round cost_per_token 6
      cost_per_character := py_round cost_per_character 6
      prompt_complexity := prompt_complexity
      efficiency_score :=
        calculate_efficiency_score latency_ms cost_usd tokens_per_second prompt_complexity }
  (record, buffer_append metrics_history record)

/-- Suffix of at most 1000 records: what `l[-1000:]` keeps. -/
def last_capacity (l : List MetricsRecord) : List MetricsRecord :=
  l.drop (l.length - 1000)

theorem buffer_append_eq_last (h : List MetricsRecord) (r : MetricsRecord) :
    buffer_append h r = last_capacity (h ++ [r]) := by
  simp only [buffer_append, last_capacity]
  split
  · rfl
  · next hle =>
    have h0 : (h ++ [r]).length - 1000 = 0 := by
      simp only [List.length_append, List.length_singleton] at hle ⊢
      omega
    rw [h0, List.drop_zero]

theorem last_capacity_append (l rest : List MetricsRecord) :
    last_capacity (last_capacity l ++ rest) = last_capacity (l ++ rest) := by
  unfold last_capacity
  generalize (1000 : ℕ) = C
  rw [← List.drop_append_of_le_length (Nat.sub_le l.length C), List.drop_drop]
  congr 1
  simp only [List.length_drop, List.length_append]
  omega

theorem foldl_buffer_append (rs : List MetricsRecord) (init : List MetricsRecord)
    (hne : rs ≠ []) :
    rs.foldl buffer_append init = last_capacity (init ++ rs) := by
  induction rs generalizing init with
  | nil => exact absurd rfl hne
  | cons r rest ih =>
    rw [List.foldl_cons]
    cases hrest : rest with
    | nil =>
      simp only [List.foldl_nil]
      rw [buffer_append_eq_last]
    | cons a t =>
      rw [← hrest, ih _ (by rw [hrest]; simp), buffer_append_eq_last,
        last_capacity_append, List.append_assoc, List.singleton_append]

/-- Claim C2: after calling the buffer insertion `C + 5 = 1005` times on a
buffer of capacity `C = 1000`, starting from any buffer state, the buffer
holds exactly 1000 entries, and they are the most recently inserted 1000
records in insertion order (FIFO eviction of the oldest). -/
theorem c2_buffer_fifo (init inserted : List MetricsRecord)
    (h : inserted.length = 1005) :
    inserted.foldl buffer_append init = inserted.drop 5 ∧
    (inserted.foldl buffer_append init).length = 1000 := by
  have hne : inserted ≠ [] := by
    intro he
    rw [he] at h
    simp at h
  rw [foldl_buffer_append _ _ hne]
  unfold last_capacity
  constructor
  · have hlen : (init ++ inserted).length - 1000 = init.length + 5 := by
      rw [List.length_append, h]
      omega
    rw [hlen, List.drop_append]
  · simp only [List.length_drop, List.length_append, h]
    omega

/-- Concrete run for the claim C2 witness: 1005 distinct records. -/
def c2_records : List MetricsRecord :=
  (List.range 1005).map (fun (i : ℕ) =>
    { timestamp := (i : ℚ), model := "m", prompt_length := 0, response_length := 0
      latency_ms := 0, cost_usd := 0, input_tokens := 0, output_tokens := 0
      total_tokens := 0, tokens_per_second := 0, cost_per_token := 0
      cost_per_character := 0, prompt_complexity := 0, efficiency_score := 0 })

/-- Witness for claim C2 at a concrete insertion sequence of length 1005. -/
theorem c2_buffer_fifo_witness :
    c2_records.foldl buffer_append [] = c2_records.drop 5 ∧
    (c2_records.foldl buffer_append []).length = 1000 :=
  c2_buffer_fifo [] c2_records
    (by unfold c2_records; rw [List.length_map, List.length_range])

/-- Claim C10: for every tracked request — any latency (including zero and
negative sentinel values), cost, token counts (including zero) — the
per-request efficiency score stored in the metrics record lies in the
closed interval `[0, 100]` (a 0-to-100 scale); the guards make the
computation total, never dividing by zero. -/
theorem c10_efficiency_score_range (now : ℚ) (metrics_history : List MetricsRecord)
    (prompt response model : String) (latency_ms : ℤ) (cost_usd : ℚ)
    (input_tokens output_tokens total_tokens : ℤ) :
    0 ≤ (track_request_metrics now metrics_history prompt response model latency_ms
        cost_usd input_tokens output_tokens total_tokens).1.efficiency_score ∧
    (track_request_metrics now metrics_history prompt response model latency_ms
        cost_usd input_tokens output_tokens total_tokens).1.efficiency_score ≤ 100 := by
  simp only [track_request_metrics, calculate_efficiency_score]
  exact ⟨py_round_clamp_nonneg _, py_round_clamp_le _⟩

/-! ## Windowed performance summary (metrics_service.py, lines 168-228)

Helpers mirroring the Python statistics module on exact rationals; the
Python functions are only ever called on non-empty lists, and the empty
case is given the junk value 0. -/

def list_mean (l : List ℚ) : ℚ := l.sum / l.length

def list_median (l : List ℚ) : ℚ :=
  let s := l.mergeSort (fun a b => decide (a ≤ b))
  if l.length % 2 = 1 then s.getD (l.length / 2) 0
  else (s.getD (l.length / 2 - 1) 0 + s.getD (l.length / 2) 0) / 2

def list_min : List ℚ → ℚ
  | [] => 0
  | x :: xs => xs.foldl min x

def list_max : List ℚ → ℚ
  | [] => 0
  | x :: xs => xs.foldl max x

/-- Python `int(len(latencies) * 0.95)`: truncation of the scaled length
(metrics_service.py, line 208). -/
def p95_index (n : ℕ) : ℕ := (⌊(n : ℚ) * (95 / 100)⌋).toNat

/-- Python `sorted(latencies)[int(len(latencies) * 0.95)]`
(metrics_service.py, line 208).  The out-of-bounds value is 0; the theorem
for claim C8 shows the index is always in bounds on non-empty input. -/
def p95_value (latencies : List ℚ) : ℚ :=
  (latencies.mergeSort (fun a b => decide (a ≤ b))).getD (p95_index latencies.length) 0

structure LatencyStats where
  avg_ms : ℚ
  median_ms : ℚ
  min_ms : ℚ
  max_ms : ℚ
  p95_ms : ℚ
deriving Repr, DecidableEq

structure CostStats where
  total_usd : ℚ
  avg_usd : ℚ
  median_usd : ℚ
  min_usd : ℚ
  max_usd : ℚ
deriving Repr, DecidableEq

structure EfficiencyStats where
  avg_score : ℚ
  median_score : ℚ
  min_score : ℚ
  max_score : ℚ
deriving Repr, DecidableEq

structure PerformanceStats where
  avg_tokens_per_second : ℚ
  median_tokens_per_second : ℚ
deriving Repr, DecidableEq

structure PerformanceSummary where
  period_hours : ℚ
  total_requests : ℕ
  model_filter : Option String
  latency_stats : LatencyStats
  cost_stats : CostStats
  efficiency_stats : EfficiencyStats
  performance_stats : PerformanceStats
deriving Repr, DecidableEq

/-- Window-and-model filter of `MetricsService.get_performance_summary`
(metrics_service.py, lines 179-188).  `datetime.now()` is the parameter
`now` in seconds; `timedelta(hours=hours)` is `hours * 3600` seconds.
Python `if model:` is falsy both for `None` and for the empty string. -/
def recent_filtered (now hours : ℚ) (model : Option String)
    (metrics_history : List MetricsRecord) : List MetricsRecord :=
  let cutoff_time := now - hours * 3600
  let recent := metrics_history.filter (fun m => decide (cutoff_time ≤ m.timestamp))
  match model with
  | some mo => if mo = "" then recent else recent.filter (fun m => decide (m.model = mo))
  | none => recent

/-- Python `MetricsService.get_performance_summary` (metrics_service.py,
lines 168-228).  The Python dict carrying only an "error" key is modelled
as `Except.error`. -/
def get_performance_summary (now : ℚ) (metrics_history : List MetricsRecord)
    (model : Option String) (hours : ℚ) : Except String PerformanceSummary :=
  let recent_metrics := recent_filtered now hours model metrics_history
  if recent_metrics = [] then
    Except.error "No metrics available for the specified period"
  else
    let latencies := recent_metrics.map (fun m => (m.latency_ms : ℚ))
    let costs := recent_metrics.map (fun m => m.cost_usd)
    let efficiency_scores := recent_metrics.map (fun m => m.efficiency_score)
    let tokens_per_second := recent_metrics.map (fun m => m.tokens_per_second)
    Except.ok
      { period_hours := hours
        total_requests := recent_metrics.length
        model_filter := model
        latency_stats :=
          { avg_ms := py_round (list_mean latencies) 2
            median_ms := py_round (list_median latencies) 2
            min_ms := list_min latencies
            max_ms := list_max latencies
            p95_ms := py_round (p95_value latencies) 2 }
        cost_stats :=
          { total_usd := py_round costs.sum 6
            avg_usd := py_round (list_mean costs) 6
            median_usd := py_round (list_median costs) 6
            min_usd := list_min costs
            max_usd := list_max costs }
        efficiency_stats :=
          { avg_score := py_round (list_mean efficiency_scores) 1
            median_score := py_round (list_median efficiency_scores) 1
            min_score := list_min efficiency_scores
            max_score := list_max efficiency_scores }
        performance_stats :=
          { avg_tokens_per_second := py_round (list_mean tokens_per_second) 2
            median_tokens_per_second := py_round (list_median tokens_per_second) 2 } }

/-- Claim C7: for every time window and model filter, the summary returns
the explicit no-data error exactly when the filtered record set is empty,
and returns numeric statistics (an `ok` payload, never NaN — the embedding
is over exact rationals with guarded divisions) exactly when it is
non-empty, so callers can distinguish an empty window from all-zero data. -/
theorem c7_empty_window_reports_no_data (now hours : ℚ) (model : Option String)
    (metrics_history : List MetricsRecord) :
    (get_performance_summary now metrics_history model hours =
        Except.error "No metrics available for the specified period" ↔
      recent_filtered now hours model metrics_history = []) ∧
    ((∃ s, get_performance_summary now metrics_history model hours = Except.ok s) ↔
      recent_filtered now hours model metrics_history ≠ []) := by
  unfold get_performance_summary
  constructor
  · constructor
    · intro h
      by_contra hne
      simp only [if_neg hne] at h
      exact Except.noConfusion h
    · intro h
      simp only [if_pos h]
  · constructor
    · rintro ⟨s, hs⟩ hempty
      simp only [if_pos hempty] at hs
      exact Except.noConfusion hs
    · intro hne
      rw [if_neg hne]
      exact ⟨_, rfl⟩

/-! ## Claim C8: the p95 order statistic -/

theorem decide_le_trans (a b c : ℚ) (h1 : decide (a ≤ b) = true)
    (h2 : decide (b ≤ c) = true) : decide (a ≤ c) = true := by
  simp only [decide_eq_true_eq] at h1 h2 ⊢
  exact le_trans h1 h2

theorem decide_le_total (a b : ℚ) : (decide (a ≤ b) || decide (b ≤ a)) = true := by
  simpa using le_total a b

theorem round_half_even_intCast (z : ℤ) : round_half_even ((z : ℤ) : ℚ) = z := by
  unfold round_half_even
  rw [Int.floor_intCast, sub_self]
  norm_num [round_intCast]

theorem py_round_intCast (z : ℤ) (n : ℕ) : py_round ((z : ℤ) : ℚ) n = ((z : ℤ) : ℚ) := by
  unfold py_round
  have h1 : ((z : ℤ) : ℚ) * 10 ^ n = (((z * 10 ^ n : ℤ)) : ℚ) := by push_cast; ring
  rw [h1, round_half_even_intCast]
  push_cast
  have hp : ((10 : ℚ)) ^ n ≠ 0 := by positivity
  field_simp

/-- Latency values as they enter `get_performance_summary`: Python
`latency_ms` is an int, collected into the `latencies` list. -/
def latencies_of (ms : List ℤ) : List ℚ := ms.map (fun z => ((z : ℤ) : ℚ))

/-- Claim C8: on every non-empty latency list of size n, the index used by
the p95 computation equals `floor(0.95 * n)` (which is `19n/20`), is always
strictly below n, and the reported p95 value is exactly the element at that
0-based index of the latencies sorted ascending (a stable sort, no
interpolation); rounding to 2 digits leaves the integer latency unchanged. -/
theorem c8_p95_order_statistic (ms : List ℤ) (hne : ms ≠ []) :
    p95_index ms.length < ms.length ∧
    p95_index ms.length = 19 * ms.length / 20 ∧
    ((latencies_of ms).mergeSort (fun a b => decide (a ≤ b)))[p95_index ms.length]? =
      some (p95_value (latencies_of ms)) ∧
    py_round (p95_value (latencies_of ms)) 2 = p95_value (latencies_of ms) ∧
    List.Pairwise (fun a b => a ≤ b)
      ((latencies_of ms).mergeSort (fun a b => decide (a ≤ b))) ∧
    ((latencies_of ms).mergeSort (fun a b => decide (a ≤ b))).Perm (latencies_of ms) := by
  have hn : 0 < ms.length := List.length_pos.mpr hne
  have hidx : p95_index ms.length = 19 * ms.length / 20 := by
    unfold p95_index
    have h1 : (ms.length : ℚ) * (95 / 100) = ((19 * ms.length : ℕ) : ℚ) / ((20 : ℕ) : ℚ) := by
      push_cast
      ring
    rw [h1, Int.floor_toNat, Nat.floor_div_nat, Nat.floor_natCast]
  have hlt : p95_index ms.length < ms.length := by
    rw [hidx]
    omega
  have hlen : (latencies_of ms).length = ms.length := by
    unfold latencies_of
    rw [List.length_map]
  have hb : p95_index ms.length <
      ((latencies_of ms).mergeSort (fun a b => decide (a ≤ b))).length := by
    rw [List.length_mergeSort, hlen]
    exact hlt
  have hvalue : ((latencies_of ms).mergeSort (fun a b => decide (a ≤ b)))[p95_index ms.length]? =
      some (p95_value (latencies_of ms)) := by
    unfold p95_value
    rw [hlen, List.getD_eq_getElem?_getD, List.getElem?_eq_getElem hb]
    rfl
  have hmemS : p95_value (latencies_of ms) ∈
      (latencies_of ms).mergeSort (fun a b => decide (a ≤ b)) := by
    have hval : p95_value (latencies_of ms) =
        ((latencies_of ms).mergeSort (fun a b => decide (a ≤ b)))[p95_index ms.length] := by
      have := hvalue
      rw [List.getElem?_eq_getElem hb] at this
      exact (Option.some_injective _ this).symm
    rw [hval]
    exact List.getElem_mem hb
  have hmem : p95_value (latencies_of ms) ∈ latencies_of ms :=
    (List.mergeSort_perm (latencies_of ms) (fun a b => decide (a ≤ b))).mem_iff.mp hmemS
  obtain ⟨z, _, hcast⟩ := List.mem_map.mp hmem
  have hround : py_round (p95_value (latencies_of ms)) 2 = p95_value (latencies_of ms) := by
    rw [← hcast]
    exact py_round_intCast z 2
  have hpair : List.Pairwise (fun a b => a ≤ b)
      ((latencies_of ms).mergeSort (fun a b => decide (a ≤ b))) := by
    have hs := List.sorted_mergeSort decide_le_trans decide_le_total (latencies_of ms)
    exact hs.imp (fun h => by simpa using h)
  exact ⟨hlt, hidx, hvalue, hround, hpair, List.mergeSort_perm _ _⟩

/-- Witness for claim C8 at the concrete latency list `[5, 1, 3]`. -/
theorem c8_p95_order_statistic_witness :
    p95_index ([5, 1, 3] : List ℤ).length < ([5, 1, 3] : List ℤ).length ∧
    p95_index ([5, 1, 3] : List ℤ).length = 2 :=
  ⟨(c8_p95_order_statistic [5, 1, 3] (by decide)).1, by
    norm_num [p95_index, Int.floor_eq_iff]
    rfl⟩

/-! ## Telemetry emitter (gemini_service.py)

Embedding of `GeminiService.generate_content` (gemini_service.py, lines
101-234), real-API path.  The ambient readings (`psutil`, wall clock) are
passed in as an explicit environment; the upstream Gemini call is an
`Except` value: `ok text` when `self.model.generate_content` returns, and
`error e` when it raises.  The demo-mode branch (no API key) is outside
the scope of the claims and is not modelled. -/

structure EnergyProfile where
  energy_wh_per_1k_tokens : ℚ
  co2_g_per_1k_tokens : ℚ
  cost_per_1k_tokens : ℚ
  latency_ms : ℤ
  region : String
deriving Repr, DecidableEq

/-- Python `self.model_energy_profiles.get(model, profiles["gemini-1.5-flash"])`
(gemini_service.py, lines 35-99 and 155): table lookup with the
`gemini-1.5-flash` row as the default. -/
def model_energy_profile_of (model : String) : EnergyProfile :=
  if model = "auto" then
    { energy_wh_per_1k_tokens := 3 / 100, co2_g_per_1k_tokens := 2 / 100
      cost_per_1k_tokens := 1 / 100, latency_ms := 100, region := "us-central1" }
  else if model = "gemini-2.5-flash" then
    { energy_wh_per_1k_tokens := 5 / 100, co2_g_per_1k_tokens := 3 / 100
      cost_per_1k_tokens := 2 / 100, latency_ms := 180, region := "us-central1" }
  else if model = "gemini-2.5-flash-lite" then
    { energy_wh_per_1k_tokens := 3 / 100, co2_g_per_1k_tokens := 2 / 100
      cost_per_1k_tokens := 1 / 100, latency_ms := 100, region := "us-central1" }
  else if model = "gemini-2.5-pro" then
    { energy_wh_per_1k_tokens := 20 / 100, co2_g_per_1k_tokens := 4 / 100
      cost_per_1k_tokens := 3 / 100, latency_ms := 350, region := "us-central1" }
  else if model = "gemini-1.5-flash-lite" then
    { energy_wh_per_1k_tokens := 8 / 100, co2_g_per_1k_tokens := 4 / 100
      cost_per_1k_tokens := 8 / 1000, latency_ms := 150, region := "us-central1" }
  else if model = "gemini-1.5-pro" then
    { energy_wh_per_1k_tokens := 25 / 100, co2_g_per_1k_tokens := 10 / 100
      cost_per_1k_tokens := 25 / 1000, latency_ms := 500, region := "us-central1" }
  else
    { energy_wh_per_1k_tokens := 15 / 100, co2_g_per_1k_tokens := 8 / 100
      cost_per_1k_tokens := 15 / 1000, latency_ms := 200, region := "us-central1" }

/-- Python `len(s.split())`: whitespace split, empty chunks dropped. -/
def py_word_count (s : String) : ℕ :=
  ((s.split Char.isWhitespace).filter (fun w => decide (w ≠ ""))).length

/-- Python `int(len(s.split()) * 1.3)` (gemini_service.py, lines 150-151):
truncation of a non-negative value is the floor. -/
def estimate_tokens (s : String) : ℤ := ⌊(py_word_count s : ℚ) * (13 / 10)⌋

/-- Python sample formula 3 (gemini_service.py, lines 176-179):
`1.1 if 2 <= current_hour <= 6 else 1.0`. -/
def time_efficiency (current_hour : ℕ) : ℚ :=
  if 2 ≤ current_hour ∧ current_hour ≤ 6 then 11 / 10 else 1

/-- Python sample formula 2 (gemini_service.py, lines 170-174). -/
def model_efficiency (model : String) : ℚ :=
  if model = "gemini-1.5-flash" then 1
  else if model = "gemini-1.5-pro" then 7 / 10
  else if model = "gemini-2.0-flash" then 12 / 10
  else 1

/-- Python sample formula 5 (gemini_service.py, lines 184-189). -/
def regional_carbon_intensity (region : String) : ℚ :=
  if region = "us-central1" then 1
  else if region = "us-west1" then 11 / 10
  else if region = "europe-west1" then 8 / 10
  else 1

/-- Ambient readings of the emitter: `psutil.cpu_percent()`,
`psutil.virtual_memory().percent`, `datetime.datetime.now().hour`, and the
elapsed wall time in milliseconds. -/
structure GenEnv where
  cpu_percent : ℚ
  memory_percent : ℚ
  current_hour : ℕ
  elapsed_ms : ℤ
deriving Repr, DecidableEq

structure TokensUsed where
  input : ℤ
  output : ℤ
  total : ℤ
deriving Repr, DecidableEq

/-- Pydantic model `EnergyMetrics` (models.py, lines 11-18), without the
timestamp field. -/
structure EnergyMetrics where
  energy_kwh : ℚ
  co2_grams : ℚ
  model_name : String
  region : String
deriving Repr, DecidableEq

/-- Result dict of `generate_content`.  The failure dict has no
`actual_model` key, modelled by `none`. -/
structure GenerationResult where
  response_text : String
  model_used : String
  actual_model : Option String
  tokens_used : TokensUsed
  energy_metrics : EnergyMetrics
  processing_time_ms : ℤ
  success : Bool
  error : Option String
deriving Repr, DecidableEq

/-- Python `GeminiService.generate_content` (gemini_service.py, lines
101-234), real-API path.  The function is total: the `except` clause of the
source converts any upstream failure into a result value. -/
def generate_content (env : GenEnv) (prompt model : String)
    (upstream : Except String String) : GenerationResult :=
  let original_model := model
  let model := if model = "auto" then "gemini-2.5-flash-lite" else model
  match upstream with
  | Except.error e =>
      { response_text := "Error generating response: " ++ e
        model_used := model
        actual_model := none
        tokens_used := { input := 0, output := 0, total := 0 }
        energy_metrics :=
          { energy_kwh := 0, co2_grams := 0, model_name := model, region := "unknown" }
        processing_time_ms := env.elapsed_ms
        success := false
        error := some e }
  | Except.ok response_text =>
      let input_tokens := estimate_tokens prompt
      let output_tokens := estimate_tokens response_text
      let total_tokens := input_tokens + output_tokens
      let energy_profile := model_energy_profile_of model
      let base_energy_wh := energy_profile.energy_wh_per_1k_tokens * total_tokens / 1000
      let base_co2_grams := energy_profile.co2_g_per_1k_tokens * total_tokens / 1000
      let system_energy_factor :=
        1 + (env.cpu_percent / 100) * (3 / 10) + (env.memory_percent / 100) * (2 / 10)
      let complexity_factor := 1 + ((prompt.length : ℚ) / 1000) * (1 / 10)
      let energy_wh := base_energy_wh * system_energy_factor * model_efficiency model *
        time_efficiency env.current_hour * complexity_factor
      let co2_grams := base_co2_grams * system_energy_factor * model_efficiency model *
        time_efficiency env.current_hour * complexity_factor *
        regional_carbon_intensity energy_profile.region
      { response_text := response_text
        model_used := original_model
        actual_model := some model
        tokens_used := { input := input_tokens, output := output_tokens, total := total_tokens }
        energy_metrics :=
          { energy_kwh := energy_wh / 1000, co2_grams := co2_grams
            model_name := model, region := energy_profile.region }
        processing_time_ms := env.elapsed_ms
        success := true
        error := none }

/-- Claim C3: whenever the upstream provider call fails, the emitter does
not raise (the embedded function is total and hits the `except` branch):
it returns a result with `success = false`, zero energy and CO2, zero
token counts, and the error recorded. -/
theorem c3_provider_failure_zeroed (env : GenEnv) (prompt model e : String) :
    (generate_content env prompt model (Except.error e)).success = false ∧
    (generate_content env prompt model (Except.error e)).energy_metrics.energy_kwh = 0 ∧
    (generate_content env prompt model (Except.error e)).energy_metrics.co2_grams = 0 ∧
    (generate_content env prompt model (Except.error e)).tokens_used =
      { input := 0, output := 0, total := 0 } ∧
    (generate_content env prompt model (Except.error e)).error = some e :=
  ⟨rfl, rfl, rfl, rfl, rfl⟩

/-- Claim C6 counterexample: at local hour 6 the code's time-of-day factor
is 1.1, not the 1.0 the claim assigns to hour 6 (the code's interval is the
closed `[2, 6]`, not the half-open `[2, 6)`). -/
theorem c6_counterexample :
    time_efficiency 6 = 11 / 10 ∧ ((11 : ℚ) / 10 ≠ 1) := by
  constructor
  · rfl
  · norm_num

/-- Claim C6 (amended): the time-of-day factor is 1.1 exactly for local
hours in the closed interval `[2, 6]` — hours 2, 3, 4, 5 and 6 — and 1.0
for every other hour. -/
theorem c6_amended_time_factor (h : ℕ) :
    (time_efficiency h = 11 / 10 ↔ (2 ≤ h ∧ h ≤ 6)) ∧
    (time_efficiency h = 1 ↔ ¬ (2 ≤ h ∧ h ≤ 6)) := by
  unfold time_efficiency
  by_cases hc : 2 ≤ h ∧ h ≤ 6
  · rw [if_pos hc]
    norm_num [hc]
  · rw [if_neg hc]
    norm_num [hc]

/-! ## Leaderboard ranker (database_service_production.py, lines 196-253)

Per-team rows built by `get_team_leaderboard` before ranking, and the
`LeaderboardEntry` model (models.py, lines 59-67). -/

structure TeamStatEntry where
  team_id : String
  team_name : String
  co2_saved : ℚ
  energy_saved : ℚ
  efficiency_score : ℚ
deriving Repr, DecidableEq

structure LeaderboardEntry where
  rank : ℤ
  name : String
  value : ℚ
  secondary_value : ℚ
  change_percent : ℚ
  badge : Option String
deriving Repr, DecidableEq

/-- Python `team_stats.sort(key=lambda x: x["efficiency_score"], reverse=True)`
(database_service_production.py, line 230): a stable sort, descending by
the metric; `reverse=True` keeps ties in original relative order. -/
def leaderboard_sort (team_stats : List TeamStatEntry) : List TeamStatEntry :=
  team_stats.mergeSort (fun a b => decide (b.efficiency_score ≤ a.efficiency_score))

/-- Badge by 0-based position (database_service_production.py, line 242):
gold for index 0, silver for 1, bronze for 2, none otherwise. -/
def leaderboard_badge (i : ℕ) : Option String :=
  if i = 0 then some "🥇" else if i = 1 then some "🥈"
  else if i = 2 then some "🥉" else none

/-- Python `get_team_leaderboard` entry construction
(database_service_production.py, lines 232-243): enumerate the sorted,
truncated rows; `rank = i + 1`; `change_percent = 0.0`. -/
def get_team_leaderboard (team_stats : List TeamStatEntry) (limit : ℕ) :
    List LeaderboardEntry :=
  ((leaderboard_sort team_stats).take limit).enum.map (fun p =>
    { rank := (p.1 : ℤ) + 1
      name := p.2.team_name
      value := p.2.efficiency_score
      secondary_value := p.2.co2_saved
      change_percent := 0
      badge := leaderboard_badge p.1 })

theorem team_le_bool_trans (a b c : TeamStatEntry)
    (h1 : decide (b.efficiency_score ≤ a.efficiency_score) = true)
    (h2 : decide (c.efficiency_score ≤ b.efficiency_score) = true) :
    decide (c.efficiency_score ≤ a.efficiency_score) = true := by
  simp only [decide_eq_true_eq] at h1 h2 ⊢
  exact le_trans h2 h1

theorem team_le_bool_total (a b : TeamStatEntry) :
    (decide (b.efficiency_score ≤ a.efficiency_score) ||
      decide (a.efficiency_score ≤ b.efficiency_score)) = true := by
  simpa using le_total b.efficiency_score a.efficiency_score

/-- Claim C4: the leaderboard sorts descending by the metric value, is a
permutation of its input, keeps tied entries in their original relative
order (stability), assigns `rank = position + 1` (1-based, dense and
consecutive even across ties), and gives the gold badge to rank 1, silver
to rank 2, bronze to rank 3 and no badge otherwise. -/
theorem c4_leaderboard_ranking (team_stats : List TeamStatEntry) (limit : ℕ) :
    (leaderboard_sort team_stats).Perm team_stats ∧
    List.Pairwise (fun a b => b.efficiency_score ≤ a.efficiency_score)
      (leaderboard_sort team_stats) ∧
    (∀ a b : TeamStatEntry, a.efficiency_score = b.efficiency_score →
      [a, b].Sublist team_stats → [a, b].Sublist (leaderboard_sort team_stats)) ∧
    (∀ (i : ℕ) (hi : i < (get_team_leaderboard team_stats limit).length),
      ((get_team_leaderboard team_stats limit).get ⟨i, hi⟩).rank = (i : ℤ) + 1 ∧
      ((get_team_leaderboard team_stats limit).get ⟨i, hi⟩).badge =
        (if ((get_team_leaderboard team_stats limit).get ⟨i, hi⟩).rank = 1 then some "🥇"
         else if ((get_team_leaderboard team_stats limit).get ⟨i, hi⟩).rank = 2 then some "🥈"
         else if ((get_team_leaderboard team_stats limit).get ⟨i, hi⟩).rank = 3 then some "🥉"
         else none)) := by
  refine ⟨List.mergeSort_perm _ _, ?_, ?_, ?_⟩
  · have hs := List.sorted_mergeSort team_le_bool_trans team_le_bool_total team_stats
    exact hs.imp (fun h => by simpa using h)
  · intro a b hab hsub
    exact List.pair_sublist_mergeSort team_le_bool_trans team_le_bool_total
      (by simp [hab]) hsub
  · intro i hi
    have hi' : i < ((leaderboard_sort team_stats).take limit).enum.length := by
      simpa [get_team_leaderboard] using hi
    have hget : (get_team_leaderboard team_stats limit).get ⟨i, hi⟩ =
        { rank := (i : ℤ) + 1
          name := (((leaderboard_sort team_stats).take limit).get ⟨i, by simpa using hi'⟩).team_name
          value := (((leaderboard_sort team_stats).take limit).get ⟨i, by simpa using hi'⟩).efficiency_score
          secondary_value := (((leaderboard_sort team_stats).take limit).get ⟨i, by simpa using hi'⟩).co2_saved
          change_percent := 0
          badge := leaderboard_badge i } := by
      simp only [get_team_leaderboard, List.get_eq_getElem, List.getElem_map,
        List.getElem_enum]
    rw [hget]
    refine ⟨rfl, ?_⟩
    simp only [leaderboard_badge]
    by_cases h0 : i = 0
    · subst h0
      norm_num
    · by_cases h1 : i = 1
      · subst h1
        norm_num
      · by_cases h2 : i = 2
        · subst h2
          norm_num
        · have hn0 : ¬ ((i : ℤ) + 1 = 1) := by omega
          have hn1 : ¬ ((i : ℤ) + 1 = 2) := by omega
          have hn2 : ¬ ((i : ℤ) + 1 = 3) := by omega
          simp [h0, h1, h2, hn0, hn1, hn2]

/-- Concrete teams for the claim C4 witness: one low scorer and two tied
high scorers. -/
def c4_team_a : TeamStatEntry :=
  { team_id := "a", team_name := "A", co2_saved := 0, energy_saved := 0
    efficiency_score := 1 }

/-- Tied entry appearing first in input order. -/
def c4_team_b : TeamStatEntry :=
  { team_id := "b", team_name := "B", co2_saved := 0, energy_saved := 0
    efficiency_score := 2 }

/-- Tied entry appearing second in input order. -/
def c4_team_c : TeamStatEntry :=
  { team_id := "c", team_name := "C", co2_saved := 0, energy_saved := 0
    efficiency_score := 2 }

/-- Witness for claim C4: the two tied teams keep their input order in the
sorted leaderboard, and the first entry has rank 1. -/
theorem c4_leaderboard_ranking_witness :
    [c4_team_b, c4_team_c].Sublist (leaderboard_sort [c4_team_a, c4_team_b, c4_team_c]) :=
  (c4_leaderboard_ranking [c4_team_a, c4_team_b, c4_team_c] 10).2.2.1 c4_team_b c4_team_c
    rfl (List.Sublist.cons c4_team_a (List.Sublist.refl [c4_team_b, c4_team_c]))

/-! ## Analytics: hypothesis testing (analytics_service_production.py)

The t statistic itself is `mean / (std / sqrt(n))`, an irrational value;
the embedding quantifies over an arbitrary rational `t_stat`, which covers
every value the floating-point source can produce. -/

/-- Python `AnalyticsService._t_cdf` (analytics_service_production.py,
lines 327-338). -/
def t_cdf (t : ℚ) (df : ℤ) : ℚ :=
  if df ≤ 0 then 1 / 2
  else if |t| < 196 / 100 then 1 / 2 + (4 / 10) * (t / (196 / 100))
  else if 0 < t then 975 / 1000 else 25 / 1000

/-- P-value computation of `perform_hypothesis_testing`
(analytics_service_production.py, line 67):
`2 * (1 - t_cdf(abs(t_stat), n - 1)) if n > 1 else 1.0`. -/
def hyp_p_value (t_stat : ℚ) (n : ℕ) : ℚ :=
  if 1 < n then 2 * (1 - t_cdf |t_stat| ((n : ℤ) - 1)) else 1

/-- Significance flag (analytics_service_production.py, line 78):
`p_value < 0.05`. -/
def hyp_is_significant (t_stat : ℚ) (n : ℕ) : Bool :=
  decide (hyp_p_value t_stat n < 5 / 100)

/-- Claim C9: for every t statistic and sample size, the p-value produced
by the hypothesis test is at least 0.05 — exactly 0.05 when `|t| ≥ 1.96`
(with at least 2 samples) and above 0.2 otherwise — so the significance
flag `p < 0.05` is always false: a significant result is unreachable. -/
theorem c9_significance_unreachable (t_stat : ℚ) (n : ℕ) :
    5 / 100 ≤ hyp_p_value t_stat n ∧
    (196 / 100 ≤ |t_stat| → 1 < n → hyp_p_value t_stat n = 5 / 100) ∧
    (|t_stat| < 196 / 100 → 1 < n → 1 / 5 < hyp_p_value t_stat n) ∧
    hyp_is_significant t_stat n = false := by
  have habs : (0 : ℚ) ≤ |t_stat| := abs_nonneg _
  have key : 5 / 100 ≤ hyp_p_value t_stat n ∧
      (196 / 100 ≤ |t_stat| → 1 < n → hyp_p_value t_stat n = 5 / 100) ∧
      (|t_stat| < 196 / 100 → 1 < n → 1 / 5 < hyp_p_value t_stat n) := by
    unfold hyp_p_value t_cdf
    by_cases hn : 1 < n
    · have hdf : ¬ ((n : ℤ) - 1 ≤ 0) := by omega
      rw [if_pos hn, if_neg hdf, abs_abs]
      by_cases ht : |t_stat| < 196 / 100
      · rw [if_pos ht]
        refine ⟨by linarith, fun hge _ => absurd ht (not_lt.mpr hge), fun _ _ => by linarith⟩
      · have htpos : (0 : ℚ) < |t_stat| := by
          have := not_lt.mp ht
          linarith
        rw [if_neg ht, if_pos htpos]
        refine ⟨by norm_num, fun _ _ => by norm_num, fun hlt _ => absurd hlt ht⟩
    · rw [if_neg hn]
      exact ⟨by norm_num, fun _ h => absurd h hn, fun _ h => absurd h hn⟩
  refine ⟨key.1, key.2.1, key.2.2, ?_⟩
  unfold hyp_is_significant
  exact decide_eq_false (not_lt.mpr key.1)

/-- Witness for claim C9 at `t = 3`, `n = 2`: the p-value is exactly 0.05
and the flag is false. -/
theorem c9_significance_unreachable_witness :
    hyp_p_value 3 2 = 5 / 100 ∧ hyp_is_significant 3 2 = false :=
  ⟨(c9_significance_unreachable 3 2).2.1 (by norm_num) (by norm_num),
    (c9_significance_unreachable 3 2).2.2.2⟩

/-! ## Analytics: naive forecaster (analytics_service_production.py) -/

/-- Python `AnalyticsService._linear_regression`
(analytics_service_production.py, lines 311-325). -/
def linear_regression (x_values y_values : List ℚ) : ℚ × ℚ :=
  let n := x_values.length
  if n < 2 then (0, 0)
  else
    let sum_x := x_values.sum
    let sum_y := y_values.sum
    let sum_xy := ((List.zip x_values y_values).map (fun p => p.1 * p.2)).sum
    let sum_x2 := (x_values.map (fun x => x * x)).sum
    let slope := ((n : ℚ) * sum_xy - sum_x * sum_y) / ((n : ℚ) * sum_x2 - sum_x * sum_x)
    let intercept := (sum_y - slope * sum_x) / (n : ℚ)
    (slope, intercept)

/-- Python `x_values = list(range(n))` (analytics_service_production.py,
line 132). -/
def forecast_x_values (n : ℕ) : List ℚ := (List.range n).map (fun (i : ℕ) => (i : ℚ))

/-- Python `residuals = [y - (slope * x + intercept) for x, y in zip(...)]`
(analytics_service_production.py, line 146). -/
def forecast_residuals (historical_values : List ℚ) : List ℚ :=
  let p := linear_regression (forecast_x_values historical_values.length) historical_values
  (List.zip (forecast_x_values historical_values.length) historical_values).map
    (fun q => q.2 - (p.1 * q.1 + p.2))

/-- Squared RMSE of the fit (analytics_service_production.py, line 147):
`rmse = sqrt(mse)` with `mse = sum(r**2 for r in residuals)/len(residuals)`. -/
def forecast_mse (historical_values : List ℚ) : ℚ :=
  ((forecast_residuals historical_values).map (fun r => r ^ 2)).sum /
    ((forecast_residuals historical_values).length : ℚ)

/-- Radicand of the margin (analytics_service_production.py, line 151):
`1 + 1/n + (n + i)**2 / sum(x**2 for x in x_values)`; the code margin is
`1.96 * rmse * sqrt` of this. -/
def forecast_margin_radicand (n i : ℕ) : ℚ :=
  1 + 1 / (n : ℚ) +
    ((n : ℚ) + (i : ℚ)) ^ 2 / ((forecast_x_values n).map (fun x => x ^ 2)).sum

/-- Written from the words of the specification claim C5: the centered
quadratic term `(x - xbar)^2 / sum((x_k - xbar)^2)` with `x = n + i` and
`xbar` the mean of `0..n-1`. -/
def spec_margin_radicand_centered (n i : ℕ) : ℚ :=
  let xs := forecast_x_values n
  let xbar := xs.sum / (n : ℚ)
  1 + 1 / (n : ℚ) + ((n : ℚ) + (i : ℚ) - xbar) ^ 2 / (xs.map (fun x => (x - xbar) ^ 2)).sum

/-- Claim C5 counterexample: on the history `[0, 3, 0]` (n = 3, non-zero
residuals, rmse = sqrt 2) and the first projected point (i = 0), the
margin the code computes — `1.96 * rmse * sqrt(1 + 1/n + (n+i)^2 / Σ x^2)`,
radicand 47/15 — differs from the claimed centered margin — radicand
`1 + 1/3 + (3 - 1)^2 / 2 = 10/3 = 50/15`. -/
theorem c5_counterexample :
    (196 / 100 : ℝ) * Real.sqrt ((forecast_mse [0, 3, 0] : ℚ) : ℝ) *
        Real.sqrt ((forecast_margin_radicand 3 0 : ℚ) : ℝ) ≠
      (196 / 100 : ℝ) * Real.sqrt ((forecast_mse [0, 3, 0] : ℚ) : ℝ) *
        Real.sqrt ((spec_margin_radicand_centered 3 0 : ℚ) : ℝ) := by
  have hmse : forecast_mse [0, 3, 0] = 2 := by
    simp [forecast_mse, forecast_residuals, linear_regression, forecast_x_values,
      List.range_succ, List.zip]
    norm_num
  have hcode : forecast_margin_radicand 3 0 = 47 / 15 := by
    simp [forecast_margin_radicand, forecast_x_values, List.range_succ]
    norm_num
  have hspec : spec_margin_radicand_centered 3 0 = 10 / 3 := by
    simp [spec_margin_radicand_centered, forecast_x_values, List.range_succ]
    norm_num
  rw [hmse, hcode, hspec]
  push_cast
  have hlt : Real.sqrt (47 / 15) < Real.sqrt (10 / 3) :=
    Real.sqrt_lt_sqrt (by norm_num) (by norm_num)
  have hpos : (0 : ℝ) < 196 / 100 * Real.sqrt 2 := by positivity
  have hmul : 196 / 100 * Real.sqrt 2 * Real.sqrt (47 / 15) <
      196 / 100 * Real.sqrt 2 * Real.sqrt (10 / 3) :=
    mul_lt_mul_of_pos_left hlt hpos
  exact ne_of_lt hmul

/-- Gauss sum of squares over the regression abscissas `0..n-1`. -/
theorem sum_sq_x_values (n : ℕ) :
    ((forecast_x_values n).map (fun x => x ^ 2)).sum =
      (n : ℚ) * ((n : ℚ) - 1) * (2 * (n : ℚ) - 1) / 6 := by
  induction n with
  | zero => simp [forecast_x_values]
  | succ m ih =>
    unfold forecast_x_values at ih ⊢
    rw [List.range_succ, List.map_append, List.map_append, List.sum_append, ih]
    push_cast
    simp only [List.map_cons, List.map_nil, List.sum_cons, List.sum_nil]
    ring

/-- Closed form of the uncentered radicand of line 151. -/
theorem forecast_margin_radicand_closed_form (n i : ℕ) :
    forecast_margin_radicand n i =
      1 + 1 / (n : ℚ) +
        ((n : ℚ) + (i : ℚ)) ^ 2 * 6 / ((n : ℚ) * ((n : ℚ) - 1) * (2 * (n : ℚ) - 1)) := by
  unfold forecast_margin_radicand
  rw [sum_sq_x_values, div_div_eq_mul_div]

/-- Python projection loop (analytics_service_production.py, lines
139-143): `predicted_y = slope * (n + i) + intercept` clamped to be
non-negative, for `i` in `range(days_ahead)`. -/
def forecast_values (historical_values : List ℚ) (days_ahead : ℕ) : List ℚ :=
  let p := linear_regression (forecast_x_values historical_values.length) historical_values
  (List.range days_ahead).map (fun (i : ℕ) =>
    max 0 (p.1 * ((historical_values.length : ℚ) + (i : ℚ)) + p.2))

/-- Python margin (analytics_service_production.py, lines 147 and 151):
`1.96 * rmse * math.sqrt(1 + 1/n + (n + i)**2 / sum(x**2 ...))` with
`rmse = math.sqrt(mse)`. -/
noncomputable def forecast_margin (historical_values : List ℚ) (i : ℕ) : ℝ :=
  196 / 100 * Real.sqrt ((forecast_mse historical_values : ℚ) : ℝ) *
    Real.sqrt ((forecast_margin_radicand historical_values.length i : ℚ) : ℝ)

/-- Python interval loop (analytics_service_production.py, lines 149-155):
`for i, value in enumerate(forecast_values): ...
{"lower": max(0, value - margin), "upper": value + margin}`. -/
noncomputable def confidence_intervals (historical_values : List ℚ) (days_ahead : ℕ) :
    List (ℝ × ℝ) :=
  (forecast_values historical_values days_ahead).enum.map (fun p =>
    (max 0 (((p.2 : ℚ) : ℝ) - forecast_margin historical_values p.1),
     ((p.2 : ℚ) : ℝ) + forecast_margin historical_values p.1))

/-- Claim C5 (amended): for every history and every projected point
`i < days_ahead`, the confidence margin equals
`1.96 · rmse · sqrt(1 + 1/n + (n+i)^2 / Σ_{k<n} k^2)` — the quadratic term
is the raw, uncentered projected index over the raw sum of squares, whose
closed form is `n(n-1)(2n-1)/6` — the projected value is
`max(0, slope·(n+i) + intercept)`, and the interval at that point is
exactly `[max(0, ŷ − margin), ŷ + margin]`. -/
theorem c5_amended_margin_and_interval (historical_values : List ℚ) (days_ahead i : ℕ)
    (hi : i < days_ahead) :
    forecast_margin historical_values i =
      196 / 100 * Real.sqrt ((forecast_mse historical_values : ℚ) : ℝ) *
        Real.sqrt (1 + 1 / (historical_values.length : ℝ) +
          ((historical_values.length : ℝ) + (i : ℝ)) ^ 2 * 6 /
            ((historical_values.length : ℝ) * ((historical_values.length : ℝ) - 1) *
              (2 * (historical_values.length : ℝ) - 1))) ∧
    (forecast_values historical_values days_ahead).length = days_ahead ∧
    (forecast_values historical_values days_ahead).getD i 0 =
      max 0 ((linear_regression (forecast_x_values historical_values.length)
            historical_values).1 * ((historical_values.length : ℚ) + (i : ℚ)) +
        (linear_regression (forecast_x_values historical_values.length)
            historical_values).2) ∧
    (confidence_intervals historical_values days_ahead).length = days_ahead ∧
    (confidence_intervals historical_values days_ahead).getD i (0, 0) =
      (max 0 ((((forecast_values historical_values days_ahead).getD i 0 : ℚ) : ℝ) -
          forecast_margin historical_values i),
       (((forecast_values historical_values days_ahead).getD i 0 : ℚ) : ℝ) +
          forecast_margin historical_values i) := by
  have hlenv : (forecast_values historical_values days_ahead).length = days_ahead := by
    unfold forecast_values
    rw [List.length_map, List.length_range]
  have hiv : i < (forecast_values historical_values days_ahead).length := by
    rw [hlenv]
    exact hi
  have hmargin : forecast_margin historical_values i =
      196 / 100 * Real.sqrt ((forecast_mse historical_values : ℚ) : ℝ) *
        Real.sqrt (1 + 1 / (historical_values.length : ℝ) +
          ((historical_values.length : ℝ) + (i : ℝ)) ^ 2 * 6 /
            ((historical_values.length : ℝ) * ((historical_values.length : ℝ) - 1) *
              (2 * (historical_values.length : ℝ) - 1))) := by
    unfold forecast_margin
    rw [forecast_margin_radicand_closed_form]
    congr 2
    push_cast
    ring
  have hval : (forecast_values historical_values days_ahead).getD i 0 =
      max 0 ((linear_regression (forecast_x_values historical_values.length)
            historical_values).1 * ((historical_values.length : ℚ) + (i : ℚ)) +
        (linear_regression (forecast_x_values historical_values.length)
            historical_values).2) := by
    unfold forecast_values
    rw [List.getD_eq_getElem?_getD, List.getElem?_map, List.getElem?_range hi]
    rfl
  have hlenc : (confidence_intervals historical_values days_ahead).length = days_ahead := by
    unfold confidence_intervals
    rw [List.length_map, List.enum_length, hlenv]
  have hic : i < (confidence_intervals historical_values days_ahead).length := by
    rw [hlenc]
    exact hi
  have hgetD : (forecast_values historical_values days_ahead).getD i 0 =
      (forecast_values historical_values days_ahead).get ⟨i, hiv⟩ := by
    rw [List.getD_eq_getElem?_getD, List.getElem?_eq_getElem hiv]
    rfl
  refine ⟨hmargin, hlenv, hval, hlenc, ?_⟩
  have hie : i < ((forecast_values historical_values days_ahead).enum.map
      (fun p => (max 0 (((p.2 : ℚ) : ℝ) - forecast_margin historical_values p.1),
        ((p.2 : ℚ) : ℝ) + forecast_margin historical_values p.1))).length := by
    rw [List.length_map, List.enum_length]
    exact hiv
  unfold confidence_intervals
  rw [List.getD_eq_getElem?_getD, List.getElem?_eq_getElem hie, Option.getD_some,
    List.getElem_map, List.getElem_enum, hgetD]
  rfl

/-- Witness for claim C5 (amended) on the history `[0, 3, 0]` with two
projected days: the first projected value is `max(0, 0·3 + 1) = 1`, and
both result lists have length 2. -/
theorem c5_amended_margin_and_interval_witness :
    (forecast_values [0, 3, 0] 2).getD 0 0 = 1 ∧
    (forecast_values [0, 3, 0] 2).length = 2 ∧
    (confidence_intervals [0, 3, 0] 2).length = 2 := by
  obtain ⟨-, hlenv, hval, hlenc, -⟩ :=
    c5_amended_margin_and_interval [0, 3, 0] 2 0 (by norm_num)
  refine ⟨?_, hlenv, hlenc⟩
  rw [hval]
  simp [linear_regression, forecast_x_values, List.range_succ, List.zip]
  norm_num

end CarbonSight
